import Mathlib

/-!
Verification development for the MALJRS legal-analysis backend.

This file gives a shallow embedding of the backend code that the verified
properties are about:

* `Backend/parsers/response_formatter.py` — `format_ai_response`,
  `validate_response_structure` and the legacy fallback extractors;
* `Backend/parsers/ai_output_parser.py` — the normalization layer
  (`normalize_classification`, `normalize_string`, `normalize_law_dict`,
  `normalize_precedent_case`, `normalize_action_plan_item`,
  `parse_full_analysis_response`);
* `Backend/services/cache_service.py` — `CacheService` with TTL expiry and stats;
* `Backend/agents.py` — the `OllamaLLM.generate` / `agenerate` retry loops and
  prompt truncation;
* `Backend/main.py` — the classification extraction and the task-graph wiring of
  `run_legal_crew`, plus its two-phase raise-on-failure control flow;
* `Backend/services/ai_service.py` — `AIService.process_full_case`.

Modelling conventions: Python strings are Lean `String` (`List Char` internally;
Python indexing/slicing is code-point based, matching `List Char` operations).
Python `float` is modelled as an exact rational (`Rat`); the inputs exercised
here have exact short decimal expansions.  Wall-clock time (`datetime.now()`)
is an explicit integer parameter.  Exceptions are modelled with `Except`:
a Python function that can raise returns `Except String α`, and a `try/except`
is a `match` on that result.  External collaborators (the CrewAI kickoff, the
HTTP transport, SHA-256 key generation, narrative construction) are opaque
parameters, as the spec declares them out of scope.
-/

/-- Python values as produced by `json.loads` and manipulated by the parsers:
`None`, `bool`, `int`, `float` (as an exact rational), `str`, `list`, and
`dict` (an insertion-ordered association list with unique keys, exactly the
shape `json.loads` produces). -/
inductive PyVal where
  | pyNone
  | pyBool (b : Bool)
  | pyInt (n : Int)
  | pyFloat (q : Rat)
  | pyStr (s : String)
  | pyList (xs : List PyVal)
  | pyDict (fields : List (String × PyVal))

open PyVal

/-- `d.get(k)` on a Python dict: first (unique) binding of `k`. -/
def dictGet (fs : List (String × PyVal)) (k : String) : Option PyVal :=
  match fs with
  | [] => none
  | (k2, v) :: rest => if k2 = k then some v else dictGet rest k

/-- `d.get(k, default)` on a Python dict. -/
def dictGetD (fs : List (String × PyVal)) (k : String) (d : PyVal) : PyVal :=
  (dictGet fs k).getD d

/-- `d[k] = v` on a Python dict: overwrite in place, else append (insertion order). -/
def dictInsert (fs : List (String × PyVal)) (k : String) (v : PyVal) :
    List (String × PyVal) :=
  match fs with
  | [] => [(k, v)]
  | (k2, w) :: rest => if k2 = k then (k2, v) :: rest else (k2, w) :: dictInsert rest k v

/-- The whitespace characters stripped by Python `str.strip()` (ASCII range). -/
def isPySpace (c : Char) : Bool :=
  c == ' ' || c == '\t' || c == '\n' || c == '\r' || c == '\x0b' || c == '\x0c'

/-- Strip leading and trailing whitespace from a character list. -/
def trimPyList (cs : List Char) : List Char :=
  ((cs.dropWhile isPySpace).reverse.dropWhile isPySpace).reverse

/-- Python `s.strip()`. -/
def pyStrip (s : String) : String := String.mk (trimPyList s.toList)

/-- Python `s.lower()` (ASCII case folding, which covers every use here). -/
def pyLower (s : String) : String := String.mk (s.toList.map Char.toLower)

/-- Substring occurrence on character lists. -/
def listHasSub (needle : List Char) : List Char → Bool
  | [] => needle.isEmpty
  | c :: t => needle.isPrefixOf (c :: t) || listHasSub needle t

/-- Python `needle in hay` on strings. -/
def strContains (hay needle : String) : Bool :=
  listHasSub needle.toList hay.toList

/-- Python `len(s)` (code points). -/
def pyLen (s : String) : Nat := s.toList.length

/-- Python truthiness (`if value:`). -/
def pyTruthy : PyVal → Bool
  | pyNone => false
  | pyBool b => b
  | pyInt n => n != 0
  | pyFloat q => q != 0
  | pyStr s => s != ""
  | pyList xs => !xs.isEmpty
  | pyDict fs => !fs.isEmpty

/-- The single-quote character (written by code point to keep sources clean). -/
def squote : Char := Char.ofNat 39

/-- CPython `repr` of a `str`: single quotes, double quotes when the string
contains a single quote but no double quote; backslash, quote and control
escapes for the characters that occur in this development. -/
def pyReprQuote (s : String) : String :=
  let cs := s.toList
  let q : Char := if cs.contains squote && !(cs.contains '"') then '"' else squote
  let esc : Char → List Char := fun c =>
    if c = '\\' then ['\\', '\\']
    else if c = q then ['\\', q]
    else if c = '\n' then ['\\', 'n']
    else if c = '\r' then ['\\', 'r']
    else if c = '\t' then ['\\', 't']
    else [c]
  String.mk (q :: (cs.flatMap esc) ++ [q])

/-- Digits of a natural number, used to build decimal expansions. -/
def natDecimal (n : Nat) : String := toString n

/-- Pad a numeral with leading zeros to width `w`. -/
def padZeros (s : String) (w : Nat) : String :=
  String.mk (List.replicate (w - s.toList.length) '0') ++ s

/-- Drop trailing zeros of a fractional part but keep at least one digit. -/
def dropTrailingZeros (s : String) : String :=
  let r := s.toList.reverse.dropWhile (· == '0')
  if r.isEmpty then "0" else String.mk r.reverse

/-- CPython `repr`/`str` of a float, for values with an exact short decimal
expansion (the only floats that occur in this development: JSON decimal
literals). -/
def floatReprPy (q : Rat) : String :=
  if q.den = 1 then toString q.num ++ ".0"
  else
    match (List.range 40).find? (fun k => (10 ^ k) % q.den = 0) with
    | some k =>
      let sign := if q.num < 0 then "-" else ""
      let scaled : Nat := (q.num.natAbs * (10 ^ k)) / q.den
      let ip := scaled / 10 ^ k
      let fp := scaled % 10 ^ k
      sign ++ natDecimal ip ++ "." ++ dropTrailingZeros (padZeros (natDecimal fp) k)
    | none => toString q

mutual

/-- CPython `repr` of a value (used by `str()` on lists and dicts). -/
def pyRepr : PyVal → String
  | pyNone => "None"
  | pyBool b => if b then "True" else "False"
  | pyInt n => toString n
  | pyFloat q => floatReprPy q
  | pyStr s => pyReprQuote s
  | pyList xs => "[" ++ pyReprItems xs ++ "]"
  | pyDict fs => "\x7b" ++ pyReprFields fs ++ "\x7d"

/-- Comma-separated `repr` of list items. -/
def pyReprItems : List PyVal → String
  | [] => ""
  | [x] => pyRepr x
  | x :: y :: t => pyRepr x ++ ", " ++ pyReprItems (y :: t)

/-- Comma-separated `repr` of dict entries. -/
def pyReprFields : List (String × PyVal) → String
  | [] => ""
  | [(k, v)] => pyReprQuote k ++ ": " ++ pyRepr v
  | (k, v) :: e :: t => pyReprQuote k ++ ": " ++ pyRepr v ++ ", " ++ pyReprFields (e :: t)

end

/-- Python `str(value)`. -/
def pyToStr : PyVal → String
  | pyStr s => s
  | pyInt n => toString n
  | pyBool b => if b then "True" else "False"
  | pyNone => "None"
  | pyFloat q => floatReprPy q
  | pyList xs => pyRepr (pyList xs)
  | pyDict fs => pyRepr (pyDict fs)

/-- Value of a nonempty all-digit numeral. -/
def digitsVal (ds : List Char) : Option Nat :=
  if ds ≠ [] ∧ ds.all Char.isDigit then
    some (ds.foldl (fun acc c => acc * 10 + (c.toNat - 48)) 0)
  else none

/-- Core of Python `int(s)` for base 10: optional sign then digits
(after stripping whitespace).  Digit-group underscores are not used by the
inputs of this system and are not modelled. -/
def pyIntCore (cs : List Char) : Option Int :=
  match cs with
  | '+' :: ds => (digitsVal ds).map Int.ofNat
  | '-' :: ds => (digitsVal ds).map (fun n => -(n : Int))
  | ds => (digitsVal ds).map Int.ofNat

/-- Python `int(s)`, raising `ValueError` with CPython's message on failure. -/
def pyIntOfStr (s : String) : Except String Int :=
  match pyIntCore (trimPyList s.toList) with
  | some n => .ok n
  | none => .error ("invalid literal for int() with base 10: " ++ pyReprQuote s)

/-- JSON whitespace (as accepted by Python `json.loads`). -/
def isJsonWs (c : Char) : Bool :=
  c == ' ' || c == '\t' || c == '\n' || c == '\r'

/-- Skip JSON whitespace. -/
def skipWs (cs : List Char) : List Char := cs.dropWhile isJsonWs

/-- Hexadecimal digit value. -/
def hexVal (c : Char) : Option Nat :=
  if c.isDigit then some (c.toNat - 48)
  else if 'a' ≤ c ∧ c ≤ 'f' then some (c.toNat - 87)
  else if 'A' ≤ c ∧ c ≤ 'F' then some (c.toNat - 55)
  else none

/-- Body of a JSON string (after the opening quote), with the escapes
`json.loads` accepts; raw control characters are rejected as in strict mode. -/
def parseJsonStringAux : Nat → List Char → List Char → Option (String × List Char)
  | 0, _, _ => none
  | fuel + 1, acc, cs =>
    match cs with
    | [] => none
    | '"' :: rest => some (String.mk acc.reverse, rest)
    | '\\' :: esc =>
      match esc with
      | '"' :: r => parseJsonStringAux fuel ('"' :: acc) r
      | '\\' :: r => parseJsonStringAux fuel ('\\' :: acc) r
      | '/' :: r => parseJsonStringAux fuel ('/' :: acc) r
      | 'b' :: r => parseJsonStringAux fuel ('\x08' :: acc) r
      | 'f' :: r => parseJsonStringAux fuel ('\x0c' :: acc) r
      | 'n' :: r => parseJsonStringAux fuel ('\n' :: acc) r
      | 'r' :: r => parseJsonStringAux fuel ('\r' :: acc) r
      | 't' :: r => parseJsonStringAux fuel ('\t' :: acc) r
      | 'u' :: h1 :: h2 :: h3 :: h4 :: r =>
        match hexVal h1, hexVal h2, hexVal h3, hexVal h4 with
        | some a, some b, some c, some d =>
          parseJsonStringAux fuel (Char.ofNat (((a * 16 + b) * 16 + c) * 16 + d) :: acc) r
        | _, _, _, _ => none
      | _ => none
    | c :: rest =>
      if c.toNat < 32 then none else parseJsonStringAux fuel (c :: acc) rest

/-- A JSON number: sign, integer part without leading zeros, optional fraction
and exponent.  Produces `int` exactly when no fraction/exponent is present,
matching `json.loads`. -/
def parseJsonNumber (cs : List Char) : Option (PyVal × List Char) :=
  let (neg, cs1) := match cs with
    | '-' :: r => (true, r)
    | _ => (false, cs)
  let ds := cs1.takeWhile Char.isDigit
  let rest1 := cs1.dropWhile Char.isDigit
  match digitsVal ds with
  | none => none
  | some ipart =>
    if 1 < ds.length ∧ ds.headD '0' = '0' then none
    else
      let (fnum, fden, rest2, hasFrac) :=
        match rest1 with
        | '.' :: r =>
          let fds := r.takeWhile Char.isDigit
          match digitsVal fds with
          | some f => (f, (10 : Nat) ^ fds.length, r.dropWhile Char.isDigit, true)
          | none => (0, 0, rest1, false)
        | _ => (0, 1, rest1, false)
      if fden = 0 then none
      else
        let (expOk, expVal, rest3, hasExp) :=
          match rest2 with
          | 'e' :: r | 'E' :: r =>
            let (esign, r2) := match r with
              | '-' :: rr => ((-1 : Int), rr)
              | '+' :: rr => ((1 : Int), rr)
              | _ => ((1 : Int), r)
            let eds := r2.takeWhile Char.isDigit
            match digitsVal eds with
            | some e => (true, esign * (e : Int), r2.dropWhile Char.isDigit, true)
            | none => (false, 0, rest2, true)
          | _ => (true, 0, rest2, false)
        if ¬ expOk then none
        else if ¬ hasFrac ∧ ¬ hasExp then
          some (pyInt (if neg then -(ipart : Int) else (ipart : Int)), rest3)
        else
          let base : Rat := (ipart : Rat) + (fnum : Rat) / (fden : Rat)
          let scaled : Rat :=
            if 0 ≤ expVal then base * (10 : Rat) ^ expVal.toNat
            else base / (10 : Rat) ^ (-expVal).toNat
          some (pyFloat (if neg then -scaled else scaled), rest3)

mutual

/-- A JSON value, as accepted by Python `json.loads` (fuelled recursion;
callers supply fuel larger than the input length). -/
def parseJsonValue : Nat → List Char → Option (PyVal × List Char)
  | 0, _ => none
  | fuel + 1, cs =>
    match skipWs cs with
    | '"' :: rest =>
      (parseJsonStringAux (fuel + 1) [] rest).map (fun p => (pyStr p.1, p.2))
    | '{' :: rest =>
      match skipWs rest with
      | '}' :: r => some (pyDict [], r)
      | _ => parseJsonObjectLoop fuel [] rest
    | '[' :: rest =>
      match skipWs rest with
      | ']' :: r => some (pyList [], r)
      | _ => parseJsonArrayLoop fuel [] rest
    | 't' :: 'r' :: 'u' :: 'e' :: rest => some (pyBool true, rest)
    | 'f' :: 'a' :: 'l' :: 's' :: 'e' :: rest => some (pyBool false, rest)
    | 'n' :: 'u' :: 'l' :: 'l' :: rest => some (pyNone, rest)
    | cs2 => parseJsonNumber cs2

/-- Members of a JSON object after `{` (nonempty case); duplicate keys are
overwritten in place as in Python dicts. -/
def parseJsonObjectLoop : Nat → List (String × PyVal) → List Char →
    Option (PyVal × List Char)
  | 0, _, _ => none
  | fuel + 1, acc, cs =>
    match skipWs cs with
    | '"' :: r1 =>
      match parseJsonStringAux (fuel + 1) [] r1 with
      | none => none
      | some (k, r2) =>
        match skipWs r2 with
        | ':' :: r3 =>
          match parseJsonValue fuel r3 with
          | none => none
          | some (v, r4) =>
            match skipWs r4 with
            | ',' :: r5 => parseJsonObjectLoop fuel (dictInsert acc k v) r5
            | '}' :: r5 => some (pyDict (dictInsert acc k v), r5)
            | _ => none
        | _ => none
    | _ => none

/-- Items of a JSON array after `[` (nonempty case). -/
def parseJsonArrayLoop : Nat → List PyVal → List Char → Option (PyVal × List Char)
  | 0, _, _ => none
  | fuel + 1, acc, cs =>
    match parseJsonValue fuel cs with
    | none => none
    | some (v, r1) =>
      match skipWs r1 with
      | ',' :: r2 => parseJsonArrayLoop fuel (v :: acc) r2
      | ']' :: r2 => some (pyList (v :: acc).reverse, r2)
      | _ => none

end

/-- Python `json.loads(s)`: one JSON value spanning the whole input. -/
def jsonParse (s : String) : Option PyVal :=
  let cs := s.toList
  match parseJsonValue (cs.length + 1) cs with
  | some (v, rest) => if skipWs rest = [] then some v else none
  | none => none

/-! ## Backend/parsers/response_formatter.py -/

/-- Step of the tier-1 search `re.search(r'```json\s*(\{.*?\})\s*```', raw, re.DOTALL)`:
the non-greedy group ends at the first `}` that is followed by whitespace and
a closing triple backtick.  `acc` holds the reversed group so far. -/
def fencedClose : List Char → List Char → Option (List Char)
  | _, [] => none
  | acc, c :: rest =>
    if c = '}' ∧ "```".toList.isPrefixOf (rest.dropWhile isPySpace) then
      some ((c :: acc).reverse)
    else fencedClose (c :: acc) rest

/-- Attempt the tier-1 pattern right after a literal triple-backtick-json:
`\s*` then `{`, then the non-greedy body. -/
def fencedAttempt (cs : List Char) : Option (List Char) :=
  match cs.dropWhile isPySpace with
  | '{' :: body => fencedClose ['{'] body
  | _ => none

/-- Leftmost match of the tier-1 fenced-JSON pattern; returns the captured
`{...}` group. -/
def searchFencedJson : List Char → Option (List Char)
  | [] => none
  | c :: rest =>
    if "```json".toList.isPrefixOf (c :: rest) then
      match fencedAttempt ((c :: rest).drop 7) with
      | some g => some g
      | none => searchFencedJson rest
    else searchFencedJson rest

/-- Tier 2 of `format_ai_response`: `raw.find('{')` to `raw.rfind('}') + 1`,
guarded by `json_start != -1 and json_end > json_start`. -/
def firstLastBraceSub (cs : List Char) : Option (List Char) :=
  match cs.findIdx? (· == '{') with
  | none => none
  | some i =>
    match cs.reverse.findIdx? (· == '}') with
    | none => none
    | some jr =>
      let j := cs.length - 1 - jr
      if i < j + 1 then some ((cs.drop i).take (j + 1 - i)) else none

/-- The `validators` table of `validate_response_structure`. -/
def validatorsTable : List (String × List String) :=
  [("legal_issues", ["identified_issues", "confidence_score"]),
   ("precedents", ["cases"]),
   ("arguments", ["arguments"]),
   ("weaknesses", ["weaknesses"]),
   ("court_notes", ["notes"]),
   ("cross_questions", ["questions"])]

/-- Numeric value of `x` when `isinstance(x, (int, float))` holds
(Python bools are ints). -/
def pyNumVal : PyVal → Option Rat
  | pyInt n => some (n : Rat)
  | pyFloat q => some q
  | pyBool b => some (if b then 1 else 0)
  | _ => none

/-- `isinstance(x, list)`. -/
def isPyList : PyVal → Bool
  | pyList _ => true
  | _ => false

/-- `validate_response_structure(data, request_type)`: checks required fields
and the two type-specific constraints, raising `ValueError` (modelled as
`.error`) on violation and returning `data` unchanged otherwise. -/
def validate_response_structure (data : PyVal) (request_type : String) :
    Except String PyVal :=
  match data with
  | pyDict fs =>
    let required_fields := (validatorsTable.lookup request_type).getD []
    let missing := required_fields.filter (fun f => (dictGet fs f).isNone)
    if missing ≠ [] then
      .error ("Response missing required fields: " ++ pyRepr (pyList (missing.map pyStr)))
    else if request_type = "legal_issues" then
      match dictGet fs "identified_issues" with
      | some v =>
        if !(isPyList v) then .error "identified_issues must be an array"
        else
          match dictGet fs "confidence_score" with
          | some score =>
            match pyNumVal score with
            | some q =>
              if 0 ≤ q ∧ q ≤ 1 then .ok data
              else .error "confidence_score must be between 0.0 and 1.0"
            | none => .error "confidence_score must be between 0.0 and 1.0"
          | none => .ok data
      | none =>
        match dictGet fs "confidence_score" with
        | some score =>
          match pyNumVal score with
          | some q =>
            if 0 ≤ q ∧ q ≤ 1 then .ok data
            else .error "confidence_score must be between 0.0 and 1.0"
          | none => .error "confidence_score must be between 0.0 and 1.0"
        | none => .ok data
    else if request_type = "precedents" then
      match dictGet fs "cases" with
      | some v => if !(isPyList v) then .error "cases must be an array" else .ok data
      | none => .error "KeyError"
    else .ok data
  | _ => .error "TypeError"

/-- `extract_classification`: keyword search, civil default. -/
def extract_classification (text : String) : String :=
  let text_lower := pyLower text
  if strContains text_lower "criminal" then "criminal"
  else if strContains text_lower "civil" then "civil"
  else "civil"

/-- Up to two leading asterisks (the greedy `\*?\*?`). -/
def starsTake (cs : List Char) : List Char :=
  match cs with
  | '*' :: '*' :: r => r
  | '*' :: r => r
  | r => r

/-- Case-insensitive literal match returning the remainder. -/
def ciPrefixOf : List Char → List Char → Option (List Char)
  | [], r => some r
  | _ :: _, [] => none
  | p :: ps, c :: cs2 => if p.toLower = c.toLower then ciPrefixOf ps cs2 else none

/-- Lookahead body of `extract_section` after a newline:
`\*?\*?[A-Z\s]+\*?\*?:` under IGNORECASE (so the class is letters/whitespace). -/
def sectionHeadAfter (cs : List Char) : Bool :=
  let r1 := starsTake cs
  let run := r1.takeWhile (fun c => c.isAlpha || isPySpace c)
  let r2 := r1.dropWhile (fun c => c.isAlpha || isPySpace c)
  if run.isEmpty then false
  else
    match starsTake r2 with
    | ':' :: _ => true
    | _ => false

/-- Non-greedy capture of `extract_section`: extend until a newline followed by
the section-header lookahead, or until `$` (end of string, or just before a
single trailing newline). -/
def sectionCapture (acc : List Char) : List Char → List Char
  | [] => acc.reverse
  | '\n' :: rest =>
    if sectionHeadAfter rest then acc.reverse
    else if rest.isEmpty then acc.reverse
    else sectionCapture ('\n' :: acc) rest
  | c :: rest => sectionCapture (c :: acc) rest

/-- Leftmost match of the `extract_section` pattern
`\*?\*?NAME\*?\*?[:\s]*(.*?)(?=\n\*?\*?[A-Z\s]+\*?\*?:|$)` (IGNORECASE, DOTALL);
returns the captured group. -/
def sectionScan (name : List Char) : List Char → Option (List Char)
  | [] => none
  | c :: rest =>
    match ciPrefixOf name (starsTake (c :: rest)) with
    | some r2 =>
      let r4 := (starsTake r2).dropWhile (fun c2 => c2 == ':' || isPySpace c2)
      some (sectionCapture [] r4)
    | none => sectionScan name rest

/-- `extract_section(text, section_name)`. -/
def extract_section (text : String) (section_name : String) : String :=
  match sectionScan section_name.toList text.toList with
  | some cap => pyStrip (String.mk cap)
  | none => ""

/-- Emulation of `\s*([^\n]+)` at a position: maximal whitespace run, then the
group; when only whitespace remains, the greedy `\s*` backtracks so the group
starts at the last non-newline whitespace character.  Returns the group and
the remainder after it. -/
def wsStarNonNl (cs : List Char) : Option (List Char × List Char) :=
  let w := cs.takeWhile isPySpace
  let r := cs.dropWhile isPySpace
  match r with
  | _ :: _ =>
    let g := r.takeWhile (fun c => c != '\n')
    some (g, r.drop g.length)
  | [] =>
    match w.reverse.findIdx? (fun c => c != '\n') with
    | none => none
    | some k =>
      let tailPart := w.drop (w.length - 1 - k)
      let g := tailPart.takeWhile (fun c => c != '\n')
      some (g, tailPart.drop g.length)

/-- One attempt of the `extract_laws` tail `\s+of\s+` (IGNORECASE) followed by
the group `([^,\n]+)`; returns the group and the remainder. -/
def lawsOfTail (r : List Char) : Option (List Char × List Char) :=
  let w1 := r.takeWhile isPySpace
  let r1 := r.dropWhile isPySpace
  if w1.isEmpty then none
  else
    match ciPrefixOf "of".toList r1 with
    | none => none
    | some r2 =>
      let w2 := r2.takeWhile isPySpace
      let r3 := r2.dropWhile isPySpace
      if w2.isEmpty then none
      else
        let g := r3.takeWhile (fun c => c != ',' && c != '\n')
        if !g.isEmpty then some (g, r3.drop g.length)
        else if 2 ≤ w2.length then
          -- `\s+` gives one whitespace character back to the group
          some ([w2.getLastD ' '], r3)
        else none

/-- Match of the `extract_laws` pattern
`(?:Section|Article)\s+(\d+[A-Z]?)\s+of\s+([^,\n]+)` (IGNORECASE) anchored at
the current position; returns both groups and the remainder after the match. -/
def lawsMatchAt (cs : List Char) : Option ((List Char × List Char) × List Char) :=
  let afterKw : Option (List Char) :=
    match ciPrefixOf "section".toList cs with
    | some r => some r
    | none => ciPrefixOf "article".toList cs
  match afterKw with
  | none => none
  | some r1 =>
    let w1 := r1.takeWhile isPySpace
    let r2 := r1.dropWhile isPySpace
    if w1.isEmpty then none
    else
      let ds := r2.takeWhile Char.isDigit
      let r3 := r2.dropWhile Char.isDigit
      if ds.isEmpty then none
      else
        -- greedy `[A-Z]?` (IGNORECASE), backtracking when it breaks `\s+of`
        match r3 with
        | c :: r4 =>
          if c.isAlpha then
            match lawsOfTail r4 with
            | some (g2, rem) => some ((ds ++ [c], g2), rem)
            | none =>
              match lawsOfTail r3 with
              | some (g2, rem) => some ((ds, g2), rem)
              | none => none
          else
            match lawsOfTail r3 with
            | some (g2, rem) => some ((ds, g2), rem)
            | none => none
        | [] => none

/-- `re.findall` scan for `extract_laws`: leftmost, non-overlapping. -/
def lawsScan : Nat → List Char → List (List Char × List Char)
  | 0, _ => []
  | _ + 1, [] => []
  | fuel + 1, c :: rest =>
    match lawsMatchAt (c :: rest) with
    | some (g, rem) => g :: lawsScan fuel rem
    | none => lawsScan fuel rest

/-- `extract_laws(text)`. -/
def extract_laws (text : String) : List PyVal :=
  (lawsScan (text.toList.length + 1) text.toList).map (fun g =>
    pyDict [("statute", pyStr (pyStrip (String.mk g.2))),
            ("section", pyStr ("Section " ++ String.mk g.1)),
            ("applicability", pyStr "")])

/-- Match of the `extract_precedent_cases` pattern
`([A-Z][^v\n]+)\s+v\.?\s+([A-Z][^\n,]+)(?:,?\s*([^\n]+))?` anchored at the
current position; returns the three groups (third may be empty) and the
remainder after the match. -/
def precMatchAt (cs : List Char) : Option ((List Char × List Char × List Char) × List Char) :=
  match cs with
  | [] => none
  | c0 :: r0 =>
    if !c0.isUpper then none
    else
      let run1 := r0.takeWhile (fun c => c != 'v' && c != '\n')
      let rest1 := r0.dropWhile (fun c => c != 'v' && c != '\n')
      match rest1 with
      | 'v' :: rAfterV =>
        if run1.length < 2 then none
        else if !(isPySpace (run1.getLastD ' ')) then none
        else
          -- `\s+` takes the single whitespace character adjacent to `v`
          let g1 := c0 :: run1.take (run1.length - 1)
          let r2 := match rAfterV with
            | '.' :: rr => rr
            | rr => rr
          let wsr := r2.takeWhile isPySpace
          let r3 := r2.dropWhile isPySpace
          if wsr.isEmpty then none
          else
            match r3 with
            | c2 :: r4 =>
              if !c2.isUpper then none
              else
                let run2 := r4.takeWhile (fun c => c != '\n' && c != ',')
                let r5 := r4.dropWhile (fun c => c != '\n' && c != ',')
                if run2.isEmpty then none
                else
                  let g2 := c2 :: run2
                  match r5 with
                  | ',' :: r6 =>
                    match wsStarNonNl r6 with
                    | some (g3, r7) => some ((g1, g2, g3), r7)
                    | none => some ((g1, g2, [',']), r6)
                  | _ =>
                    match wsStarNonNl r5 with
                    | some (g3, r7) => some ((g1, g2, g3), r7)
                    | none => some ((g1, g2, []), r5)
            | [] => none
      | _ => none

/-- `re.findall` scan for `extract_precedent_cases`. -/
def precScan : Nat → List Char → List (List Char × List Char × List Char)
  | 0, _ => []
  | _ + 1, [] => []
  | fuel + 1, c :: rest =>
    match precMatchAt (c :: rest) with
    | some (g, rem) => g :: precScan fuel rem
    | none => precScan fuel rest

/-- `extract_precedent_cases(text)`: first five matches as case dicts. -/
def extract_precedent_cases (text : String) : List PyVal :=
  ((precScan (text.toList.length + 1) text.toList).take 5).map (fun g =>
    pyDict [("caseName",
              pyStr (pyStrip (String.mk g.1) ++ " v. " ++ pyStrip (String.mk g.2.1))),
            ("citation", pyStr (pyStrip (String.mk g.2.2))),
            ("court", pyStr "Supreme Court"),
            ("year", pyInt 2020),
            ("headnote", pyStr ""),
            ("holding", pyStr ""),
            ("relevance", pyStr "")])

/-- Lookahead of `extract_action_plan` at a position:
`\n(?:Step\s+)?\d+[.:\)]`, or `\n\n`, or `$` (end, or before one trailing
newline). -/
def actionPlanStop (cs : List Char) : Bool :=
  match cs with
  | [] => true
  | ['\n'] => true
  | '\n' :: rest =>
    (match rest with
     | '\n' :: _ => true
     | _ =>
       let afterStep : List Char :=
         -- `(?:Step\s+)?`, case-sensitive in this pattern
         if "Step".toList.isPrefixOf rest ∧
             !((rest.drop 4).takeWhile isPySpace).isEmpty then
           (rest.drop 4).dropWhile isPySpace
         else rest
       let ds := afterStep.takeWhile Char.isDigit
       let r2 := afterStep.dropWhile Char.isDigit
       if ds.isEmpty then false
       else
         match r2 with
         | '.' :: _ => true
         | ':' :: _ => true
         | ')' :: _ => true
         | _ => false)
  | _ => false

/-- Non-greedy body of `extract_action_plan` (DOTALL): extended until the stop
lookahead holds at the current position. -/
def actionPlanBody (acc : List Char) : List Char → (List Char × List Char)
  | [] => (acc.reverse, [])
  | c :: rest =>
    if actionPlanStop (c :: rest) then (acc.reverse, c :: rest)
    else actionPlanBody (c :: acc) rest

/-- Match of the `extract_action_plan` pattern
`(?:Step\s+)?(\d+)[.:\)]\s*(.+?)(?=\n(?:Step\s+)?\d+[.:\)]|\n\n|$)` (DOTALL)
anchored at the current position.  The group excludes the `\s*`-skipped
whitespace; when only whitespace remains, `\s*` backtracks one character so
the one-character body satisfies the end-of-string lookahead. -/
def actionPlanMatchAt (cs : List Char) : Option ((List Char × List Char) × List Char) :=
  let afterStep : List Char :=
    if "Step".toList.isPrefixOf cs ∧
        !((cs.drop 4).takeWhile isPySpace).isEmpty then
      (cs.drop 4).dropWhile isPySpace
    else cs
  let ds := afterStep.takeWhile Char.isDigit
  let r1 := afterStep.dropWhile Char.isDigit
  if ds.isEmpty then none
  else
    match r1 with
    | '.' :: r2 | ':' :: r2 | ')' :: r2 =>
      let w := r2.takeWhile isPySpace
      let r3 := r2.dropWhile isPySpace
      match r3 with
      | b :: more =>
        let (body, rem) := actionPlanBody [b] more
        (some ((ds, body), rem))
      | [] =>
        if w.isEmpty then none
        else some ((ds, [w.getLastD ' ']), [])
    | _ => none

/-- `re.findall` scan for `extract_action_plan`. -/
def actionPlanScan : Nat → List Char → List (List Char × List Char)
  | 0, _ => []
  | _ + 1, [] => []
  | fuel + 1, c :: rest =>
    match actionPlanMatchAt (c :: rest) with
    | some (g, rem) => g :: actionPlanScan fuel rem
    | none => actionPlanScan fuel rest

/-- `extract_action_plan(text)`. -/
def extract_action_plan (text : String) : List PyVal :=
  (actionPlanScan (text.toList.length + 1) text.toList).map (fun g =>
    let content := String.mk g.2
    pyDict [("step", pyInt (((digitsVal g.1).getD 0 : Nat) : Int)),
            ("title", pyStr (pyStrip ((content.splitOn "\n").headD ""))),
            ("details", pyStr (pyStrip content)),
            ("timeline", pyStr "TBD"),
            ("documents", pyList [])])

/-- `format_full_analysis(raw_output)`: the legacy full-report extraction. -/
def format_full_analysis (raw_output : String) : PyVal :=
  pyDict [("classification", pyStr (extract_classification raw_output)),
          ("executiveSummary", pyStr (extract_section raw_output "EXECUTIVE SUMMARY")),
          ("keyFacts", pyStr (extract_section raw_output "KEY FACTS")),
          ("applicableLaws", pyList (extract_laws raw_output)),
          ("precedents", pyList (extract_precedent_cases raw_output)),
          ("constitutionalAspects", pyStr (extract_section raw_output "CONSTITUTIONAL")),
          ("actionPlan", pyList (extract_action_plan raw_output)),
          ("timeline", pyStr (extract_section raw_output "TIMELINES")),
          ("disclaimers", pyStr (extract_section raw_output "DISCLAIMER")),
          ("rawOutput", pyStr raw_output)]

/-- The bullet/numbered marker `(?:\d+\.|\-|\•)` of `format_legal_issues`. -/
def issueMarker (cs : List Char) : Option (List Char) :=
  let ds := cs.takeWhile Char.isDigit
  let r := cs.dropWhile Char.isDigit
  if !ds.isEmpty then
    match r with
    | '.' :: r2 => some r2
    | _ =>
      match cs with
      | '-' :: r2 => some r2
      | '•' :: r2 => some r2
      | _ => none
  else
    match cs with
    | '-' :: r2 => some r2
    | '•' :: r2 => some r2
    | _ => none

/-- One item attempt of `format_legal_issues` (marker then `\s*(.+?)(?=\n|$)`). -/
def issueItemAt (cs : List Char) : Option (String × List Char) :=
  match issueMarker cs with
  | none => none
  | some r => (wsStarNonNl r).map (fun p => (String.mk p.1, p.2))

/-- `re.findall` scan for `format_legal_issues`
(`(?:^|\n)(?:\d+\.|\-|\•)\s*(.+?)(?=\n|$)`, MULTILINE): the marker may start
at the beginning of input or after a consumed newline. -/
def legalIssuesScan : Nat → Bool → List Char → List String
  | 0, _, _ => []
  | _ + 1, _, [] => []
  | fuel + 1, atStart, c :: rest =>
    match (if atStart then issueItemAt (c :: rest) else none) with
    | some (g, rem) => g :: legalIssuesScan fuel false rem
    | none =>
      if c = '\n' then
        match issueItemAt rest with
        | some (g, rem) => g :: legalIssuesScan fuel false rem
        | none => legalIssuesScan fuel true rest
      else legalIssuesScan fuel false rest

/-- `format_legal_issues(raw_output)`. -/
def format_legal_issues (raw_output : String) : PyVal :=
  let ms := legalIssuesScan (raw_output.toList.length + 1) true raw_output.toList
  let issues := (ms.map pyStrip).filter (fun m => m ≠ "")
  pyDict [("issues",
            pyList (if !issues.isEmpty then issues.map pyStr
                    else [pyStr (pyStrip raw_output)])),
          ("confidence", pyFloat (4 / 5))]

/-- `format_precedents(raw_output)`. -/
def format_precedents (raw_output : String) : PyVal :=
  pyDict [("cases", pyList (extract_precedent_cases raw_output))]

/-- `format_arguments(raw_output)`. -/
def format_arguments (raw_output : String) : PyVal :=
  let sections := raw_output.splitOn "\n\n"
  pyDict [("arguments", pyList ((sections.filter (fun s => pyStrip s ≠ "")).map
    (fun sec =>
      pyDict [("title", pyStr (if strContains sec "\n"
                               then (sec.splitOn "\n").headD ""
                               else String.mk (sec.toList.take 50))),
              ("description", pyStr sec),
              ("supportingLaw", pyStr ""),
              ("supportingPrecedent", pyNone)])))]

/-- The character set of `lstrip('0123456789.-•) ')`. -/
def weaknessStripSet : List Char :=
  ['0', '1', '2', '3', '4', '5', '6', '7', '8', '9', '.', '-', '•', ')', ' ']

/-- `format_weaknesses(raw_output)`. -/
def format_weaknesses (raw_output : String) : PyVal :=
  let lines := raw_output.splitOn "\n"
  let keep := lines.filter (fun line =>
    pyStrip line ≠ "" ∧
      (("-".toList.isPrefixOf line.toList) ∨ ("•".toList.isPrefixOf line.toList) ∨
        (line.toList.headD ' ').isDigit))
  pyDict [("weaknesses", pyList (keep.map (fun line =>
    pyDict [("issue", pyStr (String.mk
              ((pyStrip line).toList.dropWhile (weaknessStripSet.contains ·)))),
            ("severity", pyStr "Medium"),
            ("mitigation", pyStr "To be determined")])))]

/-- `format_court_notes(raw_output)`. -/
def format_court_notes (raw_output : String) : PyVal :=
  let sections := raw_output.splitOn "\n\n"
  pyDict [("notes", pyList ((sections.filter (fun s => pyStrip s ≠ "")).map
    (fun sec =>
      let lines := sec.splitOn "\n"
      pyDict [("section", pyStr (lines.headD "Note")),
              ("content", pyStr (if 1 < lines.length
                                 then String.intercalate "\n" (lines.drop 1)
                                 else sec))]))),
          ("fullDraft", pyStr raw_output)]

/-- One match attempt of `format_cross_questions`
(`Q\d*[.:]?\s*(.+?)(?=\n|$)`, MULTILINE and IGNORECASE) at the current
position.  The greedy `\d*` and the optional punctuation back off one step at
a time when the body cannot otherwise supply its required character. -/
def crossQuestionAt (cs : List Char) : Option (String × List Char) :=
  match cs with
  | q :: r0 =>
    if q.toLower = 'q' then
      let ds := r0.takeWhile Char.isDigit
      let r1 := r0.dropWhile Char.isDigit
      let afterPunct : Option (String × List Char) :=
        match r1 with
        | '.' :: r2 | ':' :: r2 =>
          match wsStarNonNl r2 with
          | some (g, rem) => some (String.mk g, rem)
          | none =>
            -- the optional `[.:]` backtracks: the punctuation becomes the body
            some (String.mk [r1.headD ' '], r2)
        | _ =>
          match wsStarNonNl r1 with
          | some (g, rem) => some (String.mk g, rem)
          | none =>
            -- `\d*` backtracks one digit which becomes the body
            if ds.isEmpty then none
            else some (String.mk [ds.getLastD '0'], r1)
      afterPunct
    else none
  | [] => none

/-- `re.findall` scan for `format_cross_questions`. -/
def crossQuestionScan : Nat → List Char → List String
  | 0, _ => []
  | _ + 1, [] => []
  | fuel + 1, c :: rest =>
    match crossQuestionAt (c :: rest) with
    | some (g, rem) => g :: crossQuestionScan fuel rem
    | none => crossQuestionScan fuel rest

/-- `format_cross_questions(raw_output)`. -/
def format_cross_questions (raw_output : String) : PyVal :=
  let ms := crossQuestionScan (raw_output.toList.length + 1) raw_output.toList
  pyDict [("questions", pyList (ms.map (fun q =>
    pyDict [("witnessType", pyStr "General"),
            ("question", pyStr (pyStrip q)),
            ("purpose", pyStr "To establish/challenge facts"),
            ("expectedAnswer", pyStr "Variable")])))]

/-- `_fallback_format(raw_output, request_type)`. -/
def fallback_format (raw_output : String) (request_type : String) : PyVal :=
  if request_type = "full_analysis" then format_full_analysis raw_output
  else if request_type = "legal_issues" then format_legal_issues raw_output
  else if request_type = "precedents" then format_precedents raw_output
  else if request_type = "arguments" then format_arguments raw_output
  else if request_type = "weaknesses" then format_weaknesses raw_output
  else if request_type = "court_notes" then format_court_notes raw_output
  else if request_type = "cross_questions" then format_cross_questions raw_output
  else pyDict [("rawOutput", pyStr raw_output)]

/-- Body of `format_ai_response` inside its outer `try`: tier 1 (fenced JSON;
a decode failure here propagates), tier 2 (brace-to-brace substring; only a
`JSONDecodeError` is swallowed there, a `ValueError` from validation
propagates), then the tier-3 legacy fallback. -/
def formatTry (raw_output : String) (request_type : String) : Except String PyVal :=
  match searchFencedJson raw_output.toList with
  | some g =>
    match jsonParse (String.mk g) with
    | none => .error "JSONDecodeError"
    | some parsed => validate_response_structure parsed request_type
  | none =>
    match firstLastBraceSub raw_output.toList with
    | some sub =>
      match jsonParse (String.mk sub) with
      | none => .ok (fallback_format raw_output request_type)
      | some parsed => validate_response_structure parsed request_type
    | none => .ok (fallback_format raw_output request_type)

/-- `format_ai_response(raw_output, request_type)`: any exception from the
tiers is caught and wrapped in the `formatting_failed` error structure. -/
def format_ai_response (raw_output : String) (request_type : String) : PyVal :=
  match formatTry raw_output request_type with
  | .ok v => v
  | .error msg =>
    pyDict [("error", pyStr "formatting_failed"),
            ("message", pyStr msg),
            ("rawOutput", pyStr raw_output)]

/-! ## Backend/parsers/ai_output_parser.py -/

/-- JSON string escaping used by `json.dumps` (ASCII inputs). -/
def jsonEscape (s : String) : String :=
  let esc : Char → List Char := fun c =>
    if c = '\\' then ['\\', '\\']
    else if c = '"' then ['\\', '"']
    else if c = '\n' then ['\\', 'n']
    else if c = '\r' then ['\\', 'r']
    else if c = '\t' then ['\\', 't']
    else [c]
  String.mk ('"' :: s.toList.flatMap esc ++ ['"'])

/-- Indentation of `json.dumps(..., indent=2)`. -/
def dumpsPad (level : Nat) : String := String.mk (List.replicate (2 * level) ' ')

mutual

/-- `json.dumps(value, indent=2)` at a nesting level. -/
def jsonDumps2 (level : Nat) : PyVal → String
  | pyNone => "null"
  | pyBool b => if b then "true" else "false"
  | pyInt n => toString n
  | pyFloat q => floatReprPy q
  | pyStr s => jsonEscape s
  | pyList [] => "[]"
  | pyList xs =>
    "[\n" ++ jsonDumps2Items (level + 1) xs ++ "\n" ++ dumpsPad level ++ "]"
  | pyDict [] => "\x7b\x7d"
  | pyDict fs =>
    "\x7b\n" ++ jsonDumps2Fields (level + 1) fs ++ "\n" ++ dumpsPad level ++ "\x7d"

/-- Items of a dumped list, one per line. -/
def jsonDumps2Items (level : Nat) : List PyVal → String
  | [] => ""
  | [x] => dumpsPad level ++ jsonDumps2 level x
  | x :: y :: t =>
    dumpsPad level ++ jsonDumps2 level x ++ ",\n" ++ jsonDumps2Items level (y :: t)

/-- Entries of a dumped dict, one per line. -/
def jsonDumps2Fields (level : Nat) : List (String × PyVal) → String
  | [] => ""
  | [(k, v)] => dumpsPad level ++ jsonEscape k ++ ": " ++ jsonDumps2 level v
  | (k, v) :: e :: t =>
    dumpsPad level ++ jsonEscape k ++ ": " ++ jsonDumps2 level v ++ ",\n" ++
      jsonDumps2Fields level (e :: t)

end

/-- `normalize_classification(value)`. -/
def normalize_classification (value : PyVal) : String :=
  if !(pyTruthy value) then "civil"
  else
    let str_value := pyStrip (pyLower (pyToStr value))
    if strContains str_value "criminal" then "criminal" else "civil"

/-- `normalize_string(value)`. -/
def normalize_string (value : PyVal) : String :=
  match value with
  | pyStr s => pyStrip s
  | pyList xs => String.intercalate "\n" (xs.map pyToStr)
  | pyDict fs => jsonDumps2 0 (pyDict fs)
  | v => pyToStr v

/-- First-occurrence split `s.split(sep, 1)`: the part before and after the
first occurrence of `sep`, when present. -/
def splitFirstAt (sep : List Char) : List Char → Option (List Char × List Char)
  | [] => if sep.isEmpty then some ([], []) else none
  | c :: rest =>
    if sep.isPrefixOf (c :: rest) then some ([], (c :: rest).drop sep.length)
    else (splitFirstAt sep rest).map (fun p => (c :: p.1, p.2))

/-- `normalize_law_dict(value)`. -/
def normalize_law_dict (value : PyVal) : PyVal :=
  match value with
  | pyDict fs =>
    pyDict [("act", pyStr (pyToStr
              (dictGetD fs "act" (dictGetD fs "actName" (pyStr "Unknown Act"))))),
            ("section", pyStr (pyToStr
              (dictGetD fs "section" (dictGetD fs "sectionNumber" (pyStr ""))))),
            ("description", pyStr (pyToStr (dictGetD fs "description" (pyStr ""))))]
  | v =>
    let str_value := pyToStr v
    match splitFirstAt " - ".toList str_value.toList with
    | some (hd, tl) =>
      pyDict [("act", pyStr (pyStrip (String.mk hd))),
              ("section", pyStr (pyStrip (String.mk tl))),
              ("description", pyStr str_value)]
    | none =>
      pyDict [("act", pyStr (pyStrip str_value)),
              ("section", pyStr ""),
              ("description", pyStr str_value)]

/-- `normalize_precedent_case(value)`.  The `year` coercion is
`int(value.get("year", 2024)) if isinstance(value.get("year"), (int, str))
else 2024`, so a string year is passed to `int(...)`, which raises
`ValueError` on a non-numeric string. -/
def normalize_precedent_case (value : PyVal) : Except String PyVal :=
  match value with
  | pyDict fs =>
    let yearE : Except String Int :=
      match dictGet fs "year" with
      | some (pyInt n) => .ok n
      | some (pyBool b) => .ok (if b then 1 else 0)
      | some (pyStr s) => pyIntOfStr s
      | _ => .ok 2024
    match yearE with
    | .error e => .error e
    | .ok y =>
      .ok (pyDict
        [("caseName", pyStr (pyToStr
           (dictGetD fs "caseName" (dictGetD fs "name" (pyStr "Unknown Case"))))),
         ("citation", pyStr (pyToStr (dictGetD fs "citation" (pyStr "Citation not available")))),
         ("court", pyStr (pyToStr (dictGetD fs "court" (pyStr "Unknown Court")))),
         ("year", pyInt y),
         ("headnote", pyStr (pyToStr (dictGetD fs "headnote" (pyStr "")))),
         ("holding", pyStr (pyToStr (dictGetD fs "holding" (pyStr "")))),
         ("relevance", pyStr (pyToStr (dictGetD fs "relevance" (pyStr "Relevant precedent")))),
         ("distinction", dictGetD fs "distinction" pyNone)])
  | v =>
    let case_str := pyToStr v
    .ok (pyDict
      [("caseName", pyStr (if 100 < pyLen case_str
                           then String.mk (case_str.toList.take 100) else case_str)),
       ("citation", pyStr "To be determined"),
       ("court", pyStr "To be researched"),
       ("year", pyInt 2024),
       ("headnote", pyStr case_str),
       ("holding", pyStr "Analysis pending"),
       ("relevance", pyStr "Requires further research"),
       ("distinction", pyNone)])

/-- `normalize_action_plan_item(value)`. -/
def normalize_action_plan_item (value : PyVal) : PyVal :=
  match value with
  | pyDict fs =>
    pyDict [("action", pyStr (pyToStr
              (dictGetD fs "action" (dictGetD fs "title" (pyStr (pyToStr (pyDict fs))))))),
            ("priority", pyStr (pyToStr (dictGetD fs "priority" (pyStr "Medium")))),
            ("timeline", pyStr (pyToStr (dictGetD fs "timeline" (pyStr "To be determined"))))]
  | v =>
    pyDict [("action", pyStr (pyToStr v)),
            ("priority", pyStr "Medium"),
            ("timeline", pyStr "To be determined")]

/-- Normalize each precedent entry, propagating the first raised `ValueError`. -/
def normalizePrecedents : List PyVal → Except String (List PyVal)
  | [] => .ok []
  | x :: t =>
    match normalize_precedent_case x with
    | .error e => .error e
    | .ok v => (normalizePrecedents t).map (v :: ·)

/-- `parse_full_analysis_response(raw_output)`: unwraps the optional `result`
nesting and normalizes every field of the `FullAnalysisReport` schema.  Any
exception raised by a field normalizer (the precedent-year `int(...)`)
propagates to the caller. -/
def parse_full_analysis_response (raw_output : PyVal) : Except String PyVal :=
  match raw_output with
  | pyDict outer =>
    match dictGetD outer "result" (pyDict outer) with
    | pyDict rs =>
      let lawsIn := match dictGet rs "applicableLaws" with
        | some (pyList xs) => xs
        | _ => []
      let precIn := match dictGet rs "precedents" with
        | some (pyList xs) => xs
        | _ => []
      let planIn := match dictGet rs "actionPlan" with
        | some (pyList xs) => xs
        | _ => []
      match normalizePrecedents precIn with
      | .error e => .error e
      | .ok precs =>
        .ok (pyDict
          [("classification", pyStr (normalize_classification
              (dictGetD rs "classification" (pyStr "civil")))),
           ("executiveSummary", pyStr (normalize_string
              (dictGetD rs "executiveSummary" (pyStr "Analysis pending")))),
           ("keyFacts", pyStr (normalize_string (dictGetD rs "keyFacts" (pyList [])))),
           ("applicableLaws", pyList (lawsIn.map normalize_law_dict)),
           ("precedents", pyList precs),
           ("constitutionalAspects", dictGetD rs "constitutionalAspects" pyNone),
           ("actionPlan", pyList (planIn.map normalize_action_plan_item)),
           ("timeline", pyStr (normalize_string
              (dictGetD rs "timeline" (pyStr "Timeline not available")))),
           ("disclaimers", pyStr (normalize_string (dictGetD rs "disclaimers"
              (pyStr "This is an AI-generated analysis. Consult a legal professional."))))])
    | _ => .error "AttributeError"
  | _ => .error "AttributeError"

/-! ## Backend/services/cache_service.py -/

/-- One stored cache entry (`self._cache[key]`). -/
structure CacheEntry where
  data : PyVal
  created_at : Int
  expires_at : Int
  age_seconds : Int

/-- The `CacheService` state: entry store (unique keys, insertion order) and
the statistics counters. -/
structure CacheState where
  cache : List (String × CacheEntry)
  default_ttl : Int
  hits : Nat
  misses : Nat
  sets : Nat
  evictions : Nat

/-- A fresh `CacheService(default_ttl)`. -/
def cacheInit (default_ttl : Int) : CacheState :=
  ⟨[], default_ttl, 0, 0, 0, 0⟩

/-- Entry lookup (`key in self._cache` / `self._cache[key]`). -/
def cacheLookup (entries : List (String × CacheEntry)) (k : String) : Option CacheEntry :=
  match entries with
  | [] => none
  | (k2, e) :: rest => if k2 = k then some e else cacheLookup rest k

/-- `del self._cache[key]` (keys are unique, so removing every binding of the
key is the same operation). -/
def cacheErase : List (String × CacheEntry) → String → List (String × CacheEntry)
  | [], _ => []
  | (k2, e) :: rest, k =>
    if k2 = k then cacheErase rest k else (k2, e) :: cacheErase rest k

/-- `self._cache[key] = entry`: overwrite in place, else append. -/
def cacheStore (entries : List (String × CacheEntry)) (k : String) (e : CacheEntry) :
    List (String × CacheEntry) :=
  match entries with
  | [] => [(k, e)]
  | (k2, e2) :: rest =>
    if k2 = k then (k2, e) :: rest else (k2, e2) :: cacheStore rest k e

/-- `CacheService.get(key)` at time `now`: miss on absence; a present entry
with `expires_at < now` is deleted and counted as one eviction and one miss;
otherwise a hit returning the data. -/
def cacheGet (st : CacheState) (now : Int) (key : String) : Option PyVal × CacheState :=
  match cacheLookup st.cache key with
  | none => (none, { st with misses := st.misses + 1 })
  | some entry =>
    if entry.expires_at < now then
      (none, { st with cache := cacheErase st.cache key,
                       evictions := st.evictions + 1,
                       misses := st.misses + 1 })
    else
      (some entry.data, { st with hits := st.hits + 1 })

/-- `CacheService.set(key, data, ttl)` at time `now`:
`ttl = ttl or self.default_ttl` (so `None` and `0` both fall back to the
default), entry expiry `now + ttl`. -/
def cacheSet (st : CacheState) (now : Int) (key : String) (data : PyVal)
    (ttl : Option Int) : CacheState :=
  let t : Int := match ttl with
    | some v => if v ≠ 0 then v else st.default_ttl
    | none => st.default_ttl
  { st with cache := cacheStore st.cache key ⟨data, now, now + t, 0⟩,
            sets := st.sets + 1 }

/-- `CacheService.invalidate(key)`. -/
def cacheInvalidate (st : CacheState) (key : String) : CacheState :=
  { st with cache := cacheErase st.cache key }

/-- `CacheService.cleanup_expired()` at time `now`: remove exactly the entries
with `expires_at < now`; returns the removal count.  No statistics counter is
touched. -/
def cleanup_expired (st : CacheState) (now : Int) : Nat × CacheState :=
  let expired_keys := (st.cache.filter (fun p => decide (p.2.expires_at < now))).map (·.1)
  (expired_keys.length,
   { st with cache := st.cache.filter (fun p => !(decide (p.2.expires_at < now))) })

/-! ## Backend/agents.py — OllamaLLM -/

/-- Outcome of one HTTP POST to the generate endpoint as seen by the retry
loops: a 200 response with its extracted text, a
`requests.exceptions.Timeout`, or any other exception with its message. -/
inductive LLMAttempt where
  | ok (text : String)
  | timeout
  | err (msg : String)

/-- The prompt-truncation step of `OllamaLLM.generate` (agents.py lines 89-92):
prompts over 6000 characters are cut to their first 6000 characters and a
fixed truncation marker is appended. -/
def sync_payload_prompt (prompt : String) : String :=
  if 6000 < pyLen prompt then
    String.mk (prompt.toList.take 6000) ++ "\n[Truncated - provide key details]"
  else prompt

/-- The identical truncation step duplicated in `OllamaLLM.agenerate`
(agents.py lines 186-188). -/
def async_payload_prompt (prompt : String) : String :=
  if 6000 < pyLen prompt then
    String.mk (prompt.toList.take 6000) ++ "\n[Truncated - provide key details]"
  else prompt

/-- The string returned by `generate` when timeout retries are exhausted
(the source interpolates the elapsed seconds, which real time is not
modelled; the constant stands for that message). -/
def ollamaTimeoutText : String :=
  "Error: LLM timeout. Please try with a smaller query or simpler task."

/-- The retry loop of `OllamaLLM.generate`: `for attempt in
range(max_retries + 1)`.  A `Timeout` sleeps and retries while attempts
remain, and returns the timeout message once exhausted; any other exception
returns the `[OLLAMA_ERROR]` message immediately (the `return error_msg` at
the end of the loop body runs on the first such exception, regardless of the
remaining budget); a response returns its text. -/
def generateAux (env : Nat → LLMAttempt) (attempt : Nat) : Nat → String
  | 0 =>
    match env attempt with
    | .ok s => s
    | .timeout => ollamaTimeoutText
    | .err m => "[OLLAMA_ERROR] " ++ m
  | retriesLeft + 1 =>
    match env attempt with
    | .ok s => s
    | .timeout => generateAux env (attempt + 1) retriesLeft
    | .err m => "[OLLAMA_ERROR] " ++ m

/-- `OllamaLLM.generate(prompt, timeout=120, max_retries=1)`: truncates the
prompt, runs the retry loop over the transport outcomes (`env sent i` is the
POST outcome for the sent prompt on attempt `i`).  The `Except` layer records
whether an exception escapes: every path returns `.ok` — failures are
returned as message strings, not raised. -/
def ollamaGenerate (env : String → Nat → LLMAttempt) (max_retries : Nat)
    (prompt : String) : Except String String :=
  let sent := sync_payload_prompt prompt
  .ok (generateAux (env sent) 0 max_retries)

/-- The retry loop of `OllamaLLM.agenerate`: the async path catches every
exception alike and retries it; once exhausted it returns
`[OLLAMA_ASYNC_ERROR] {e}` (for a timeout, `TimeoutError` stands for
`str(e)`). -/
def agenerateAux (env : Nat → LLMAttempt) (attempt : Nat) : Nat → String
  | 0 =>
    match env attempt with
    | .ok s => s
    | .timeout => "[OLLAMA_ASYNC_ERROR] TimeoutError"
    | .err m => "[OLLAMA_ASYNC_ERROR] " ++ m
  | retriesLeft + 1 =>
    match env attempt with
    | .ok s => s
    | .timeout => agenerateAux env (attempt + 1) retriesLeft
    | .err _ => agenerateAux env (attempt + 1) retriesLeft

/-- `OllamaLLM.agenerate(prompt, timeout=120, max_retries=1)`. -/
def ollamaAgenerate (env : String → Nat → LLMAttempt) (max_retries : Nat)
    (prompt : String) : Except String String :=
  let sent := async_payload_prompt prompt
  .ok (agenerateAux (env sent) 0 max_retries)

/-! ## Backend/main.py — classification extraction and task graph -/

/-- Leftmost match of `re.search(r'\{[^{}]*"classification"[^{}]*\}', result)`:
a brace-free span between `{` and `}` containing the literal
`"classification"`. -/
def classifRegexSearch : List Char → Option (List Char)
  | [] => none
  | '{' :: rest =>
    (let mid := rest.takeWhile (fun c => c != '{' && c != '}')
     let r2 := rest.dropWhile (fun c => c != '{' && c != '}')
     match r2 with
     | '}' :: _ =>
       if listHasSub "\"classification\"".toList mid then some ('{' :: mid ++ ['}'])
       else classifRegexSearch rest
     | _ => classifRegexSearch rest)
  | _ :: rest => classifRegexSearch rest

/-- The classification extraction of `run_legal_crew` (main.py lines 192-207):
keyword search over the lowered text (criminal before civil, civil default),
then — inside `try/except: pass` — the JSON override
`parsed.get("classification", case_type)`, whose value is taken verbatim. -/
def extract_case_type (result : String) : PyVal :=
  let result_lower := pyLower result
  let kw : String :=
    if strContains result_lower "criminal" then "criminal"
    else if strContains result_lower "civil" then "civil"
    else "civil"
  match classifRegexSearch result.toList with
  | none => pyStr kw
  | some m =>
    match jsonParse (String.mk m) with
    | none => pyStr kw
    | some (pyDict fs) => dictGetD fs "classification" (pyStr kw)
    | some _ => pyStr kw

/-- A CrewAI task as far as the graph wiring is concerned: the owning agent
role (which identifies the task; descriptions are opaque prompt templates),
its `context` list (by role) and its `async_execution` flag. -/
structure TaskSpec where
  role : String
  context : List String
  async_execution : Bool
  deriving DecidableEq

/-- `create_civil_tasks(...)`: fact interpreter, law mapper, precedent finder
(contexts empty at creation, `async_execution` defaulted off). -/
def create_civil_tasks : List TaskSpec :=
  [⟨"Civil Fact Interpreter", [], false⟩,
   ⟨"Civil Law Mapper", [], false⟩,
   ⟨"Civil Precedent Finder", [], false⟩]

/-- `create_criminal_tasks(...)`. -/
def create_criminal_tasks : List TaskSpec :=
  [⟨"Criminal Fact Interpreter", [], false⟩,
   ⟨"Criminal Law Mapper", [], false⟩,
   ⟨"Criminal Precedent Finder", [], false⟩]

/-- `create_shared_tasks(...)`: constitutional validator, pathway advisor,
report synthesizer. -/
def create_shared_tasks : List TaskSpec :=
  [⟨"Constitutional Validator", [], false⟩,
   ⟨"Legal Pathway Advisor", [], false⟩,
   ⟨"Victim-Friendly Report Synthesizer", [], false⟩]

/-- Role of the `i`-th task of a list (empty when out of range). -/
def taskRoleAt (l : List TaskSpec) (i : Nat) : String :=
  ((l[i]?).map TaskSpec.role).getD ""

/-- In-place mutation `tasks[i].context = ...` on a task list. -/
def updateTask (l : List TaskSpec) (i : Nat) (f : TaskSpec → TaskSpec) : List TaskSpec :=
  match l[i]? with
  | some t => l.set i (f t)
  | none => l

/-- The task-graph wiring of `run_legal_crew` (main.py lines 228-258): the
track is civil exactly when `case_type == "civil"` (anything else selects the
criminal track); then the guarded context/async assignments, and the combined
`track_tasks + shared_tasks` list handed to the analysis crew. -/
def run_legal_crew_tasks (case_type : String) : List TaskSpec :=
  let track0 := if case_type = "civil" then create_civil_tasks else create_criminal_tasks
  let track1 :=
    if 2 ≤ track0.length then
      updateTask track0 1 (fun t => { t with context := [taskRoleAt track0 0] })
    else track0
  let track_tasks :=
    if 3 ≤ track1.length then
      updateTask track1 2 (fun t =>
        { t with context := [taskRoleAt track1 0, taskRoleAt track1 1],
                 async_execution := true })
    else track1
  let shared0 := create_shared_tasks
  let shared1 :=
    if 1 ≤ shared0.length then
      updateTask shared0 0 (fun t =>
        { t with context := [taskRoleAt track_tasks 0, taskRoleAt track_tasks 1],
                 async_execution := true })
    else shared0
  let shared2 :=
    if 2 ≤ shared1.length then
      updateTask shared1 1 (fun t =>
        { t with context := [taskRoleAt shared1 0, taskRoleAt track_tasks 1] })
    else shared1
  let shared_tasks :=
    if 3 ≤ shared2.length then
      updateTask shared2 2 (fun t =>
        { t with context := (track_tasks.map TaskSpec.role) ++
                   [taskRoleAt shared2 0, taskRoleAt shared2 1] })
    else shared2
  track_tasks ++ shared_tasks

/-- Control flow of `run_legal_crew(victim_input)`: the classifier crew runs
first and its exception is re-raised (`logger.exception; raise`); the case
type is extracted, then used as a string (`case_type.upper()` — raising
`AttributeError` when the JSON override produced a non-string); the combined
analysis crew for the selected track runs and its exception is likewise
re-raised; otherwise the final report text is returned.  The two crew
kickoffs are external collaborators passed in as outcomes (the analysis one
as a function of the extracted case type). -/
def run_legal_crew (classifier_kickoff : Except String String)
    (analysis_kickoff : String → Except String String) : Except String String :=
  match classifier_kickoff with
  | .error e => .error e
  | .ok out =>
    let result := pyStrip out
    match extract_case_type result with
    | pyStr case_type =>
      match analysis_kickoff case_type with
      | .error e => .error e
      | .ok final_report => .ok final_report
    | _ => .error "AttributeError"

/-! ## Backend/services/ai_service.py -/

/-- `AIService._extract_classification(raw_output)`. -/
def service_extract_classification (raw_output : String) : String :=
  let output_lower := pyLower raw_output
  if strContains output_lower "criminal" then "criminal"
  else if strContains output_lower "civil" then "civil"
  else "civil"

/-- The cache-miss body of `AIService.process_full_case`: the `ImportError`
mock branch, the crew pipeline (whose re-raised exception is caught by the
enclosing `try` and turned into the single top-level error dict
`{"success": False, "error": str(e)}`), formatting, normalization (whose
`ValueError` is caught the same way), caching of the normalized result for
3600 seconds, and the success dict. -/
def process_full_case_miss (st1 : CacheState) (now : Int) (cache_key : String)
    (narrative : String) (import_ok : Bool) (mock_result : PyVal)
    (classifier_kickoff : Except String String)
    (analysis_kickoff : String → Except String String) : PyVal × CacheState :=
  if !import_ok then
    (pyDict [("success", pyBool true), ("result", mock_result), ("mock", pyBool true)], st1)
  else
    match run_legal_crew classifier_kickoff analysis_kickoff with
    | .error e => (pyDict [("success", pyBool false), ("error", pyStr e)], st1)
    | .ok raw_output =>
      let formatted := format_ai_response raw_output "full_analysis"
      match parse_full_analysis_response (pyDict [("result", formatted)]) with
      | .error e => (pyDict [("success", pyBool false), ("error", pyStr e)], st1)
      | .ok normalized =>
        let st2 := cacheSet st1 now cache_key normalized (some 3600)
        (pyDict [("success", pyBool true), ("result", normalized),
                 ("narrative", pyStr narrative)], st2)

/-- `AIService.process_full_case(case_data, ...)` at time `now`.  The cache
key (SHA-256 of case fields) and the narrative (collaborator
`create_focused_narrative`) are opaque inputs derived from `case_data`;
`import_ok` is the outcome of `from main import run_legal_crew`, with
`mock_result` standing for `create_mock_full_analysis(case_data)` on the
`ImportError` branch.  A cached value is returned only when truthy
(`if cached:`). -/
def process_full_case (st : CacheState) (now : Int) (cache_key : String)
    (narrative : String) (import_ok : Bool) (mock_result : PyVal)
    (classifier_kickoff : Except String String)
    (analysis_kickoff : String → Except String String) : PyVal × CacheState :=
  let (cachedOpt, st1) := cacheGet st now cache_key
  match cachedOpt with
  | some cached =>
    if pyTruthy cached then
      (pyDict [("success", pyBool true), ("result", cached), ("cached", pyBool true)], st1)
    else
      process_full_case_miss st1 now cache_key narrative import_ok mock_result
        classifier_kickoff analysis_kickoff
  | none =>
    process_full_case_miss st1 now cache_key narrative import_ok mock_result
      classifier_kickoff analysis_kickoff

/-- Specification-side reading of the JSON tier of the classification router:
the verbatim `classification` value of the first flat JSON object in the
text, when that object parses and carries the key. -/
def classifJsonValue (result : String) : Option PyVal :=
  match classifRegexSearch result.toList with
  | none => none
  | some m =>
    match jsonParse (String.mk m) with
    | some (pyDict fs) => dictGet fs "classification"
    | _ => none

/-! ## Theorems -/

/-- Looking up a key right after storing it yields the stored entry. -/
theorem cacheLookup_cacheStore_self (es : List (String × CacheEntry)) (k : String)
    (e : CacheEntry) : cacheLookup (cacheStore es k e) k = some e := by
  induction es with
  | nil => simp [cacheStore, cacheLookup]
  | cons p rest ih =>
    obtain ⟨k2, e2⟩ := p
    by_cases h : k2 = k
    · simp [cacheStore, cacheLookup, h]
    · simp [cacheStore, cacheLookup, h, ih]

/-- Looking up a key right after erasing it misses. -/
theorem cacheLookup_cacheErase_self (es : List (String × CacheEntry)) (k : String) :
    cacheLookup (cacheErase es k) k = none := by
  induction es with
  | nil => rfl
  | cons p rest ih =>
    obtain ⟨k2, e2⟩ := p
    by_cases h : k2 = k
    · simp [cacheErase, h, ih]
    · simp [cacheErase, cacheLookup, h, ih]

/-- C4 (counterexample): the claim fails as stated.  (a) `set` with TTL `-1`
followed immediately by `get` returns absent, not the value (a negative TTL is
accepted by `set` and backdates the expiry).  (b) an entry whose `expires_at`
equals the current time is still returned by `get`, so an entry is visible at
`now = expires_at`, not only while `now < expires_at` (the code tests
`expires_at < now`). -/
theorem c4_cache_counterexample :
    (cacheGet (cacheSet (cacheInit 3600) 0 "k" (pyInt 7) (some (-1))) 0 "k").1 = none ∧
    (cacheGet (cacheSet (cacheInit 3600) 0 "k" (pyInt 7) (some 5)) 5 "k").1 =
      some (pyInt 7) := by
  exact ⟨rfl, rfl⟩

/-- C4 (amended): for a TTL `t > 0`, `set` followed immediately by `get`
returns the value; an entry present in the store is visible exactly while
`now ≤ expires_at`; and a `get` strictly after expiry returns absent, removes
the entry, and bumps the eviction and miss counters exactly once for that
entry — a repeated `get` only adds a miss. -/
theorem c4_cache_ttl_amended (st : CacheState) (now t : Int) (k : String) (v : PyVal)
    (e : CacheEntry) (ht : 0 < t) (he : cacheLookup st.cache k = some e) :
    (cacheGet (cacheSet st now k v (some t)) now k).1 = some v ∧
    ((cacheGet st now k).1 = if now ≤ e.expires_at then some e.data else none) ∧
    (e.expires_at < now →
      (cacheGet st now k).1 = none ∧
      cacheLookup (cacheGet st now k).2.cache k = none ∧
      (cacheGet st now k).2.evictions = st.evictions + 1 ∧
      (cacheGet st now k).2.misses = st.misses + 1 ∧
      (cacheGet (cacheGet st now k).2 now k).2.evictions = st.evictions + 1 ∧
      (cacheGet (cacheGet st now k).2 now k).2.misses = st.misses + 2) := by
  have htne : t ≠ 0 := by omega
  refine ⟨?_, ?_, ?_⟩
  · have hlk := cacheLookup_cacheStore_self st.cache k ⟨v, now, now + t, 0⟩
    simp only [cacheSet, if_pos htne, cacheGet, hlk]
    rw [if_neg (by simp only []; omega : ¬ (CacheEntry.mk v now (now + t) 0).expires_at < now)]
  · simp only [cacheGet, he]
    by_cases hlt : e.expires_at < now
    · rw [if_pos hlt, if_neg (by omega : ¬ now ≤ e.expires_at)]
    · rw [if_neg hlt, if_pos (by omega : now ≤ e.expires_at)]
  · intro hexp
    simp [cacheGet, he, hexp, cacheLookup_cacheErase_self]

/-- C4 (witness): the amended theorem applied at a concrete state holding one
entry that expires at time 10, read at time 20 with a fresh TTL of 5. -/
theorem c4_cache_ttl_amended_witness :
    (cacheGet (cacheSet ⟨[("k", ⟨pyInt 1, 0, 10, 0⟩)], 3600, 0, 0, 0, 0⟩ 20 "k"
        (pyInt 7) (some 5)) 20 "k").1 = some (pyInt 7) :=
  (c4_cache_ttl_amended ⟨[("k", ⟨pyInt 1, 0, 10, 0⟩)], 3600, 0, 0, 0, 0⟩ 20 5 "k"
    (pyInt 7) ⟨pyInt 1, 0, 10, 0⟩ (by decide) rfl).1

/-- C6 (counterexample): with the default budget of one retry, a collaborator
call whose attempts all time out returns *normally* with the timeout message
as its text (`Except.ok`, not a raised `TimeoutError`), and a non-timeout
transport error is returned as `[OLLAMA_ERROR]` text on the first attempt
even though a retry remained (the second attempt would have succeeded).  The
failure is thus returned disguised as generated raw text rather than raised. -/
theorem c6_generate_counterexample :
    ollamaGenerate (fun _ _ => LLMAttempt.timeout) 1 "p" = Except.ok ollamaTimeoutText ∧
    ollamaGenerate (fun _ i => if i = 0 then LLMAttempt.err "boom" else LLMAttempt.ok "text")
        1 "p" = Except.ok "[OLLAMA_ERROR] boom" :=
  ⟨rfl, rfl⟩

/-- C6 (amended): both generate paths always return normally (`.ok`) — no
exception escapes.  On the synchronous path only timeouts are retried, up to
`max_retries` (default 1): a timeout then a success returns the success text,
two timeouts return the timeout-message string, and a non-timeout error
returns the `[OLLAMA_ERROR]` string immediately without consuming the retry
budget.  On the asynchronous path any failure is retried alike, and exhausted
retries return the `[OLLAMA_ASYNC_ERROR]` string. -/
theorem c6_generate_amended (env : String → Nat → LLMAttempt) (p : String) :
    (ollamaGenerate env 1 p).isOk = true ∧
    (ollamaAgenerate env 1 p).isOk = true ∧
    (∀ s, env (sync_payload_prompt p) 0 = .timeout → env (sync_payload_prompt p) 1 = .ok s →
       ollamaGenerate env 1 p = .ok s) ∧
    (env (sync_payload_prompt p) 0 = .timeout → env (sync_payload_prompt p) 1 = .timeout →
       ollamaGenerate env 1 p = .ok ollamaTimeoutText) ∧
    (∀ m, env (sync_payload_prompt p) 0 = .err m →
       ollamaGenerate env 1 p = .ok ("[OLLAMA_ERROR] " ++ m)) ∧
    (∀ m m2, env (async_payload_prompt p) 0 = .err m →
       env (async_payload_prompt p) 1 = .err m2 →
       ollamaAgenerate env 1 p = .ok ("[OLLAMA_ASYNC_ERROR] " ++ m2)) ∧
    (∀ m s, env (async_payload_prompt p) 0 = .err m →
       env (async_payload_prompt p) 1 = .ok s →
       ollamaAgenerate env 1 p = .ok s) := by
  refine ⟨rfl, rfl, ?_, ?_, ?_, ?_, ?_⟩
  · intro s h0 h1
    simp [ollamaGenerate, generateAux, h0, h1]
  · intro h0 h1
    simp [ollamaGenerate, generateAux, h0, h1]
  · intro m h0
    simp [ollamaGenerate, generateAux, h0]
  · intro m m2 h0 h1
    simp [ollamaAgenerate, agenerateAux, h0, h1]
  · intro m s h0 h1
    simp [ollamaAgenerate, agenerateAux, h0, h1]

/-- C6 (witness): the amended theorem applied to a transport that times out
once and then answers. -/
theorem c6_generate_amended_witness :
    ollamaGenerate (fun _ i => if i = 0 then LLMAttempt.timeout else LLMAttempt.ok "hi")
      1 "p" = Except.ok "hi" :=
  (c6_generate_amended (fun _ i => if i = 0 then LLMAttempt.timeout else LLMAttempt.ok "hi")
    "p").2.2.1 "hi" rfl rfl

/-- C7 (counterexample): in the built graph for a civil request, the Report
Synthesizer task's context holds the five *other* track+shared nodes — it
does not contain all six track+shared nodes, since the synthesizer itself
(one of the six) is absent from its own context. -/
theorem c7_graph_counterexample :
    (run_legal_crew_tasks "civil")[5]? =
      some ⟨"Victim-Friendly Report Synthesizer",
        ["Civil Fact Interpreter", "Civil Law Mapper", "Civil Precedent Finder",
         "Constitutional Validator", "Legal Pathway Advisor"], false⟩ ∧
    "Victim-Friendly Report Synthesizer" ∉
      ["Civil Fact Interpreter", "Civil Law Mapper", "Civil Precedent Finder",
       "Constitutional Validator", "Legal Pathway Advisor"] :=
  ⟨rfl, by decide⟩

/-- C7 (amended): for every request the built graph has exactly the claimed
context edges — Law Mapper after Fact Interpreter; Precedent Finder after
{Fact Interpreter, Law Mapper}, parallel-eligible; Constitutional Validator
after {Fact Interpreter, Law Mapper}, parallel-eligible; Pathway Advisor
after {Constitutional Validator, Law Mapper} — and the Report Synthesizer's
context contains the five other track+shared nodes (all six except itself).
The civil track is selected exactly for the label `"civil"`; any other label
selects the criminal track. -/
theorem c7_graph_amended (case_type : String) :
    run_legal_crew_tasks case_type =
      (if case_type = "civil" then
        [⟨"Civil Fact Interpreter", [], false⟩,
         ⟨"Civil Law Mapper", ["Civil Fact Interpreter"], false⟩,
         ⟨"Civil Precedent Finder",
           ["Civil Fact Interpreter", "Civil Law Mapper"], true⟩,
         ⟨"Constitutional Validator",
           ["Civil Fact Interpreter", "Civil Law Mapper"], true⟩,
         ⟨"Legal Pathway Advisor",
           ["Constitutional Validator", "Civil Law Mapper"], false⟩,
         ⟨"Victim-Friendly Report Synthesizer",
           ["Civil Fact Interpreter", "Civil Law Mapper", "Civil Precedent Finder",
            "Constitutional Validator", "Legal Pathway Advisor"], false⟩]
      else
        [⟨"Criminal Fact Interpreter", [], false⟩,
         ⟨"Criminal Law Mapper", ["Criminal Fact Interpreter"], false⟩,
         ⟨"Criminal Precedent Finder",
           ["Criminal Fact Interpreter", "Criminal Law Mapper"], true⟩,
         ⟨"Constitutional Validator",
           ["Criminal Fact Interpreter", "Criminal Law Mapper"], true⟩,
         ⟨"Legal Pathway Advisor",
           ["Constitutional Validator", "Criminal Law Mapper"], false⟩,
         ⟨"Victim-Friendly Report Synthesizer",
           ["Criminal Fact Interpreter", "Criminal Law Mapper",
            "Criminal Precedent Finder", "Constitutional Validator",
            "Legal Pathway Advisor"], false⟩]) := by
  by_cases h : case_type = "civil"
  · rw [if_pos h]
    unfold run_legal_crew_tasks
    rw [if_pos h]
    rfl
  · rw [if_neg h]
    unfold run_legal_crew_tasks
    rw [if_neg h]
    rfl

/-- C9: the proactive sweep removes exactly the stored entries whose expiry
time has passed (`expires_at < now`), reports their count, and leaves every
statistics counter unchanged — sweep removals are never counted as
evictions, unlike the lazy eviction performed by `get` on an expired entry,
which does increment the eviction counter. -/
theorem c9_cleanup_expired_frame (st : CacheState) (now : Int) :
    (cleanup_expired st now).2.cache =
      st.cache.filter (fun p => !(decide (p.2.expires_at < now))) ∧
    (cleanup_expired st now).1 =
      (st.cache.filter (fun p => decide (p.2.expires_at < now))).length ∧
    (cleanup_expired st now).2.hits = st.hits ∧
    (cleanup_expired st now).2.misses = st.misses ∧
    (cleanup_expired st now).2.sets = st.sets ∧
    (cleanup_expired st now).2.evictions = st.evictions ∧
    (∀ k e, cacheLookup st.cache k = some e → e.expires_at < now →
       (cacheGet st now k).2.evictions = st.evictions + 1) := by
  refine ⟨rfl, by simp [cleanup_expired], rfl, rfl, rfl, rfl, ?_⟩
  intro k e hk hexp
  simp [cacheGet, hk, hexp]

/-- C9 (witness): the sweep applied to a concrete two-entry store at time 15
removes only the expired entry and keeps the counters; the lazy `get` on the
expired key bumps the eviction counter. -/
theorem c9_cleanup_expired_frame_witness :
    (cleanup_expired ⟨[("a", ⟨pyInt 1, 0, 10, 0⟩), ("b", ⟨pyInt 2, 0, 20, 0⟩)],
        3600, 3, 4, 5, 6⟩ 15).2.cache = [("b", ⟨pyInt 2, 0, 20, 0⟩)] ∧
    (cacheGet ⟨[("a", ⟨pyInt 1, 0, 10, 0⟩), ("b", ⟨pyInt 2, 0, 20, 0⟩)],
        3600, 3, 4, 5, 6⟩ 15 "a").2.evictions = 6 + 1 := by
  refine ⟨?_, ?_⟩
  · have h := (c9_cleanup_expired_frame
      ⟨[("a", ⟨pyInt 1, 0, 10, 0⟩), ("b", ⟨pyInt 2, 0, 20, 0⟩)], 3600, 3, 4, 5, 6⟩ 15).1
    rw [h]
    rfl
  · exact (c9_cleanup_expired_frame
      ⟨[("a", ⟨pyInt 1, 0, 10, 0⟩), ("b", ⟨pyInt 2, 0, 20, 0⟩)], 3600, 3, 4, 5, 6⟩
      15).2.2.2.2.2.2 "a" ⟨pyInt 1, 0, 10, 0⟩ rfl (by decide)

/-- C10: both the synchronous and the asynchronous generate paths send the
same payload prompt: unchanged when it has at most 6000 characters, and
otherwise silently cut to its first 6000 characters with the fixed marker
`\n[Truncated - provide key details]` appended; the retry loops operate on
exactly that sent prompt. -/
theorem c10_prompt_truncation (p : String) :
    sync_payload_prompt p = async_payload_prompt p ∧
    (pyLen p ≤ 6000 → sync_payload_prompt p = p) ∧
    (6000 < pyLen p →
      sync_payload_prompt p =
        String.mk (p.toList.take 6000) ++ "\n[Truncated - provide key details]") ∧
    (∀ env r, ollamaGenerate env r p =
       .ok (generateAux (env (sync_payload_prompt p)) 0 r)) ∧
    (∀ env r, ollamaAgenerate env r p =
       .ok (agenerateAux (env (async_payload_prompt p)) 0 r)) := by
  refine ⟨rfl, ?_, ?_, fun env r => rfl, fun env r => rfl⟩
  · intro h
    rw [sync_payload_prompt, if_neg (by omega)]
  · intro h
    rw [sync_payload_prompt, if_pos h]

/-- C10 (witness): the truncation theorem applied to a short prompt and to a
6001-character prompt. -/
theorem c10_prompt_truncation_witness :
    sync_payload_prompt "case facts" = "case facts" ∧
    sync_payload_prompt (String.mk (List.replicate 6001 'a')) =
      String.mk ((String.mk (List.replicate 6001 'a')).toList.take 6000) ++
        "\n[Truncated - provide key details]" :=
  ⟨(c10_prompt_truncation "case facts").2.1 (by decide),
   (c10_prompt_truncation (String.mk (List.replicate 6001 'a'))).2.2.1
     (by show 6000 < (List.replicate 6001 'a').length
         rw [List.length_replicate]
         omega)⟩

/-- C1: evaluation of the normalizer chain at the failing input.  For the raw
text `{"precedents": [{"year": "n/a"}]}` (tier-2 JSON, all nine report keys
supplied by defaults), `format_ai_response` succeeds but
`parse_full_analysis_response` raises `ValueError` from
`int(value.get("year", 2024))` — the chain raises instead of returning a
value with every schema key, contradicting the never-raises contract and the
module's own docstring. -/
theorem c1_normalizer_raises_at_failing_input :
    parse_full_analysis_response
      (pyDict [("result",
        format_ai_response "\x7b\"precedents\": [\x7b\"year\": \"n/a\"\x7d]\x7d"
          "full_analysis")]) =
      Except.error "invalid literal for int() with base 10: 'n/a'" := rfl

/-- C3 (counterexample): for the classifier output
`{"classification": "neither"}` the router yields the verbatim label
`"neither"`, which is neither `civil` nor `criminal` — the JSON tier does not
normalize its value to the two-label set. -/
theorem c3_router_counterexample :
    extract_case_type "Output: \x7b\"classification\": \"neither\"\x7d" = pyStr "neither" ∧
    ("neither" ≠ "civil" ∧ "neither" ≠ "criminal") :=
  ⟨rfl, by decide⟩

/-- C3 (amended): the router always terminates without raising and yields —
when a flat JSON object carrying a `classification` key is present and
parsable — that key's verbatim value (which need not be one of the two
labels); in every other case it yields exactly the keyword label: `criminal`
iff the text contains `criminal` case-insensitively, else the default
`civil`. -/
theorem c3_router_amended (result : String) :
    extract_case_type result =
      (classifJsonValue result).getD
        (pyStr (if strContains (pyLower result) "criminal" then "criminal"
                else "civil")) := by
  cases hm : classifRegexSearch result.data with
  | none => simp [extract_case_type, classifJsonValue, hm]
  | some m =>
    cases hp : jsonParse (String.mk m) with
    | none => simp [extract_case_type, classifJsonValue, hm, hp]
    | some v =>
      cases v <;> simp [extract_case_type, classifJsonValue, hm, hp, dictGetD]

/-- `validate_response_structure` returns its argument unchanged whenever it
succeeds. -/
theorem validate_ok_eq (d : PyVal) (rt : String) (v : PyVal)
    (h : validate_response_structure d rt = .ok v) : v = d := by
  unfold validate_response_structure at h
  cases d <;> try (cases h)
  case pyDict fs =>
    simp only [] at h
    iterate 10 (all_goals try (split at h))
    all_goals (cases h <;> rfl)

/-- C8 (counterexample): a fenced JSON block that parses to an object with all
required keys of `legal_issues` but a non-list `identified_issues`; normalize
returns the `formatting_failed` wrapper, not that object. -/
theorem c8_fenced_roundtrip_counterexample :
    jsonParse "\x7b\"identified_issues\": \"oops\", \"confidence_score\": 1\x7d" =
      some (pyDict [("identified_issues", pyStr "oops"), ("confidence_score", pyInt 1)]) ∧
    format_ai_response
        "```json\n\x7b\"identified_issues\": \"oops\", \"confidence_score\": 1\x7d\n```"
        "legal_issues" =
      pyDict [("error", pyStr "formatting_failed"),
              ("message", pyStr "identified_issues must be an array"),
              ("rawOutput", pyStr
                "```json\n\x7b\"identified_issues\": \"oops\", \"confidence_score\": 1\x7d\n```")] ∧
    pyDict [("error", pyStr "formatting_failed"),
            ("message", pyStr "identified_issues must be an array"),
            ("rawOutput", pyStr
              "```json\n\x7b\"identified_issues\": \"oops\", \"confidence_score\": 1\x7d\n```")] ≠
      pyDict [("identified_issues", pyStr "oops"), ("confidence_score", pyInt 1)] := by
  refine ⟨rfl, rfl, ?_⟩
  intro h
  have hh := congrArg
    (fun v => match v with
              | pyDict fs => dictGet fs "error"
              | _ => none) h
  simp only [dictGet] at hh
  cases hh

/-- C8 (amended): for any text containing a fenced JSON block that parses to
an object with all required keys for the request type *and* passing the
type-specific validation, `format_ai_response` returns exactly that parsed
object, unchanged. -/
theorem c8_fenced_roundtrip_amended (raw : String) (g : List Char) (rt : String)
    (d : PyVal) (h1 : searchFencedJson raw.toList = some g)
    (h2 : jsonParse (String.mk g) = some d)
    (h3 : (validate_response_structure d rt).isOk = true) :
    format_ai_response raw rt = d := by
  obtain ⟨v, hv⟩ : ∃ v, validate_response_structure d rt = .ok v := by
    cases hval : validate_response_structure d rt with
    | ok v => exact ⟨v, rfl⟩
    | error e => rw [hval] at h3; cases h3
  have hvd := validate_ok_eq d rt v hv
  simp only [format_ai_response, formatTry, h1, h2, hv]
  exact hvd

/-- C8 (witness): the amended theorem at a concrete fenced `precedents`
payload. -/
theorem c8_fenced_roundtrip_amended_witness :
    format_ai_response "```json\n\x7b\"cases\": []\x7d\n```" "precedents" =
      pyDict [("cases", pyList [])] :=
  c8_fenced_roundtrip_amended "```json\n\x7b\"cases\": []\x7d\n```"
    "\x7b\"cases\": []\x7d".toList "precedents" (pyDict [("cases", pyList [])])
    rfl rfl rfl

/-- C2 (counterexample): the classification step succeeds (the classifier
result reads `civil` and the crew pipeline returns the analysis text), yet
the top-level call aborts with the single top-level error dict because
normalizing the analysis output raises — an abort without any failure of the
classification step. -/
theorem c2_abort_counterexample :
    run_legal_crew (.ok "The matter is civil.")
        (fun _ => .ok "\x7b\"precedents\": [\x7b\"year\": \"n/a\"\x7d]\x7d") =
      .ok "\x7b\"precedents\": [\x7b\"year\": \"n/a\"\x7d]\x7d" ∧
    (process_full_case (cacheInit 3600) 0 "key" "narrative" true pyNone
        (.ok "The matter is civil.")
        (fun _ => .ok "\x7b\"precedents\": [\x7b\"year\": \"n/a\"\x7d]\x7d")).1 =
      pyDict [("success", pyBool false),
              ("error", pyStr "invalid literal for int() with base 10: 'n/a'")] :=
  ⟨rfl, rfl⟩

/-- C2 (amended): on a cache miss with the crew module importable, the
top-level call returns the success dict exactly when the crew pipeline *and*
the normalization of its output complete without raising; any exception —
from the classifier crew, from the analysis crew, or a `ValueError` raised by
the normalizer on the analysis output — aborts the whole request with the
single top-level error dict `{"success": False, "error": ...}`.  (Collaborator
timeouts by themselves never abort: the LLM client returns error text instead
of raising.) -/
theorem c2_process_full_case_amended (st : CacheState) (now : Int) (key nar : String)
    (mock : PyVal) (co : Except String String) (ak : String → Except String String)
    (hmiss : (cacheGet st now key).1 = none) :
    (∀ e, run_legal_crew co ak = .error e →
       process_full_case st now key nar true mock co ak =
         (pyDict [("success", pyBool false), ("error", pyStr e)],
          (cacheGet st now key).2)) ∧
    (∀ raw e, run_legal_crew co ak = .ok raw →
       parse_full_analysis_response
           (pyDict [("result", format_ai_response raw "full_analysis")]) = .error e →
       process_full_case st now key nar true mock co ak =
         (pyDict [("success", pyBool false), ("error", pyStr e)],
          (cacheGet st now key).2)) ∧
    (∀ raw v, run_legal_crew co ak = .ok raw →
       parse_full_analysis_response
           (pyDict [("result", format_ai_response raw "full_analysis")]) = .ok v →
       process_full_case st now key nar true mock co ak =
         (pyDict [("success", pyBool true), ("result", v), ("narrative", pyStr nar)],
          cacheSet (cacheGet st now key).2 now key v (some 3600))) := by
  obtain ⟨r, st1, hpair⟩ : ∃ r s, cacheGet st now key = (r, s) := ⟨_, _, rfl⟩
  rw [hpair] at hmiss
  have hr : r = none := hmiss
  subst hr
  refine ⟨?_, ?_, ?_⟩
  · intro e hrun
    simp only [process_full_case, hpair, process_full_case_miss, hrun,
      Bool.not_true, Bool.false_eq_true, if_false, ite_false]
  · intro raw e hrun hparse
    simp only [process_full_case, hpair, process_full_case_miss, hrun, hparse,
      Bool.not_true, Bool.false_eq_true, if_false, ite_false]
  · intro raw v hrun hparse
    simp only [process_full_case, hpair, process_full_case_miss, hrun, hparse,
      Bool.not_true, Bool.false_eq_true, if_false, ite_false]

/-- C2 (witness): the amended theorem applied to a successful classifier, an
analysis output whose normalization raises, and an empty cache. -/
theorem c2_process_full_case_amended_witness :
    process_full_case (cacheInit 3600) 5 "key2" "nar" true pyNone
        (.ok "ok this looks civil")
        (fun _ => .ok "\x7b\"precedents\": [\x7b\"year\": \"x\"\x7d]\x7d") =
      (pyDict [("success", pyBool false),
               ("error", pyStr "invalid literal for int() with base 10: 'x'")],
       (cacheGet (cacheInit 3600) 5 "key2").2) :=
  (c2_process_full_case_amended (cacheInit 3600) 5 "key2" "nar" pyNone
      (.ok "ok this looks civil")
      (fun _ => .ok "\x7b\"precedents\": [\x7b\"year\": \"x\"\x7d]\x7d") rfl).2.1
    "\x7b\"precedents\": [\x7b\"year\": \"x\"\x7d]\x7d"
    "invalid literal for int() with base 10: 'x'" rfl rfl

/-- C5 (counterexample): the validation pass does not coerce.  A confidence
score outside [0,1] (here the integer 2, with `identified_issues` a valid
list) is rejected with `ValueError`, not clipped into [0,1]; and a precedent
whose `year` is present but a non-numeric string raises `ValueError` from
`int(...)` instead of coercing to the 2024 default. -/
theorem c5_validation_counterexample :
    validate_response_structure
        (pyDict [("identified_issues", pyList []), ("confidence_score", pyInt 2)])
        "legal_issues" =
      Except.error "confidence_score must be between 0.0 and 1.0" ∧
    normalize_precedent_case (pyDict [("year", pyStr "unknown")]) =
      Except.error "invalid literal for int() with base 10: 'unknown'" := by
  constructor
  · simp [validate_response_structure, validatorsTable, dictGet, pyNumVal, isPyList]
  · rfl

/-- C5 (amended): the validation pass rejects an out-of-range confidence
score by raising `ValueError` (it never clips); a precedent year that is a
string is handed to `int(...)`, which propagates `ValueError` on a
non-numeric string, while a missing year is defaulted to the integer 2024;
and missing sub-keys of dict-shaped law and precedent records are filled with
the documented default strings (`Unknown Act`, `Citation not available`,
`Unknown Case`, `Unknown Court`, `Relevant precedent`, empty strings) without
raising. -/
theorem c5_validation_amended :
    (∀ fs v score q, dictGet fs "identified_issues" = some v → isPyList v = true →
       dictGet fs "confidence_score" = some score → pyNumVal score = some q →
       (q < 0 ∨ 1 < q) →
       validate_response_structure (pyDict fs) "legal_issues" =
         .error "confidence_score must be between 0.0 and 1.0") ∧
    (∀ fs s e, dictGet fs "year" = some (pyStr s) → pyIntOfStr s = .error e →
       normalize_precedent_case (pyDict fs) = .error e) ∧
    (∀ fs, dictGet fs "year" = none → dictGet fs "caseName" = none →
       dictGet fs "name" = none → dictGet fs "citation" = none →
       dictGet fs "court" = none → dictGet fs "relevance" = none →
       normalize_precedent_case (pyDict fs) =
         .ok (pyDict [("caseName", pyStr "Unknown Case"),
                      ("citation", pyStr "Citation not available"),
                      ("court", pyStr "Unknown Court"),
                      ("year", pyInt 2024),
                      ("headnote", pyStr (pyToStr (dictGetD fs "headnote" (pyStr "")))),
                      ("holding", pyStr (pyToStr (dictGetD fs "holding" (pyStr "")))),
                      ("relevance", pyStr "Relevant precedent"),
                      ("distinction", dictGetD fs "distinction" pyNone)])) ∧
    (∀ fs, dictGet fs "act" = none → dictGet fs "actName" = none →
       dictGet fs "section" = none → dictGet fs "sectionNumber" = none →
       dictGet fs "description" = none →
       normalize_law_dict (pyDict fs) =
         pyDict [("act", pyStr "Unknown Act"), ("section", pyStr ""),
                 ("description", pyStr "")]) := by
  refine ⟨?_, ?_, ?_, ?_⟩
  · intro fs v score q h1 h2 h3 h4 h5
    have hnr : ¬ (0 ≤ q ∧ q ≤ 1) := by
      rcases h5 with h | h
      · exact fun hc => absurd hc.1 (not_le.mpr h)
      · exact fun hc => absurd hc.2 (not_le.mpr h)
    simp only [validate_response_structure, validatorsTable]
    simp only [h1, h2, h3, h4, Bool.not_true, List.lookup, List.filter,
      Option.isNone_some, Bool.false_eq_true, if_false, ite_false]
    simp [h1, h3, hnr]
  · intro fs s e h1 h2
    simp only [normalize_precedent_case, h1, h2]
  · intro fs h1 h2 h3 h4 h5 h6
    simp only [normalize_precedent_case, dictGetD, h1, h2, h3, h4, h5, h6,
      Option.getD_none]
    rfl
  · intro fs h1 h2 h3 h4 h5
    simp only [normalize_law_dict, dictGetD, h1, h2, h3, h4, h5, Option.getD_none]
    rfl

/-- C5 (witness): the amended theorem applied at concrete records — an
out-of-range integer score, a non-numeric string year, a precedent dict with
only `holding`, and a law dict with no known keys. -/
theorem c5_validation_amended_witness :
    validate_response_structure
        (pyDict [("identified_issues", pyList []), ("confidence_score", pyInt 3)])
        "legal_issues" = .error "confidence_score must be between 0.0 and 1.0" ∧
    normalize_precedent_case (pyDict [("year", pyStr "later")]) =
      .error "invalid literal for int() with base 10: 'later'" ∧
    normalize_precedent_case (pyDict [("holding", pyStr "H")]) =
      .ok (pyDict [("caseName", pyStr "Unknown Case"),
                   ("citation", pyStr "Citation not available"),
                   ("court", pyStr "Unknown Court"),
                   ("year", pyInt 2024),
                   ("headnote", pyStr (pyToStr
                      (dictGetD [("holding", pyStr "H")] "headnote" (pyStr "")))),
                   ("holding", pyStr (pyToStr
                      (dictGetD [("holding", pyStr "H")] "holding" (pyStr "")))),
                   ("relevance", pyStr "Relevant precedent"),
                   ("distinction", dictGetD [("holding", pyStr "H")] "distinction" pyNone)]) ∧
    normalize_law_dict (pyDict [("other", pyInt 1)]) =
      pyDict [("act", pyStr "Unknown Act"), ("section", pyStr ""),
              ("description", pyStr "")] :=
  ⟨c5_validation_amended.1 [("identified_issues", pyList []), ("confidence_score", pyInt 3)]
      (pyList []) (pyInt 3) (((3 : Int) : Rat)) rfl rfl rfl rfl (Or.inr (by norm_num)),
   c5_validation_amended.2.1 [("year", pyStr "later")] "later"
      "invalid literal for int() with base 10: 'later'" rfl rfl,
   c5_validation_amended.2.2.1 [("holding", pyStr "H")] rfl rfl rfl rfl rfl rfl,
   c5_validation_amended.2.2.2 [("other", pyInt 1)] rfl rfl rfl rfl rfl⟩
